import Mathlib

/-!
# GASD: character movement modifier and saved-move flags

A shallow embedding of `UGDCharacterMovementComponent` and of its nested
`FGDSavedMove` (file `GDCharacterMovementComponent.cpp`).

Conventions of the embedding:

* `float` values are rationals (`ℚ`): every operation of the source is carried
  out in exact arithmetic, no rounding is modelled.
* `uint8` values are naturals, with `% 256` where the source stores a result
  back into a byte.
* The component is a record of the members that the source reads or writes;
  mutating member functions return the updated record.
* Calls into the engine base classes (`Super::...`) act on engine state that is
  not part of the record; where their result is used it is an explicit argument
  or field, named after the call.
* A dereference of a null owner pointer that the source does not guard is the
  result `none`.
-/

namespace GASD

/-! ## Engine types and helpers used by the source -/

/-- Modelled from the spec: the enumeration `EALSGait` is declared in a header
that is not among the sources. The spec names the gait as the discrete
locomotion tier walking, running or sprinting. -/
inductive EALSGait where
  | Walking
  | Running
  | Sprinting
  deriving DecidableEq, Repr

/-- Engine enumeration `ENetRole`. -/
inductive ENetRole where
  | ROLE_None
  | ROLE_SimulatedProxy
  | ROLE_AutonomousProxy
  | ROLE_Authority
  deriving DecidableEq, Repr

/-- Value object `FALSMovementSettings`: the three gait speeds and the handle
of the optional response curve (`none` is the null pointer). -/
structure FALSMovementSettings where
  WalkSpeed : ℚ
  RunSpeed : ℚ
  SprintSpeed : ℚ
  MovementCurve : Option Nat
  deriving DecidableEq, Repr

/-- Modelled from the spec: `FALSMovementSettings::GetSpeedForGait` is declared
in a header that is not among the sources. The spec describes the settings as
per-gait maximum speeds (walk, run, sprint) and the gait as the tier that
governs the active speed cap, so each gait selects the speed of its own name. -/
def FALSMovementSettings.GetSpeedForGait (s : FALSMovementSettings) : EALSGait → ℚ
  | EALSGait.Walking => s.WalkSpeed
  | EALSGait.Running => s.RunSpeed
  | EALSGait.Sprinting => s.SprintSpeed

/-- Engine constant `SMALL_NUMBER` (1.e-8f), the default tolerance of
`FMath::IsNearlyZero`. -/
def SMALL_NUMBER : ℚ := 1 / 100000000

/-- Engine helper `FMath::IsNearlyZero(Value, ErrorTolerance)`:
`Abs(Value) <= ErrorTolerance`. -/
def IsNearlyZero (Value ErrorTolerance : ℚ) : Bool :=
  decide (|Value| ≤ ErrorTolerance)

/-- Engine helper `FMath::Clamp(X, Min, Max)`:
`(X < Min) ? Min : (X < Max) ? X : Max`. -/
def Clamp (X Min Max : ℚ) : ℚ :=
  if X < Min then Min else if X < Max then X else Max

/-- Engine helper `FMath::GetRangePct(MinValue, MaxValue, Value)`. The divisor
is tested with `IsNearlyZero` at its default tolerance; a range that is a point
reports whether the value is before or after it. -/
def GetRangePct (MinValue MaxValue Value : ℚ) : ℚ :=
  let Divisor := MaxValue - MinValue
  if IsNearlyZero Divisor SMALL_NUMBER then
    (if Value ≥ MaxValue then 1 else 0)
  else
    (Value - MinValue) / Divisor

/-- Engine helper `FMath::Lerp(A, B, Alpha)`: `A + Alpha * (B - A)`. -/
def Lerp (A B Alpha : ℚ) : ℚ :=
  A + Alpha * (B - A)

/-- Engine helper `FMath::GetRangeValue(Range, Pct)`: `Lerp(Range.X, Range.Y, Pct)`. -/
def GetRangeValue (Range : ℚ × ℚ) (Pct : ℚ) : ℚ :=
  Lerp Range.1 Range.2 Pct

/-- Engine helper `FMath::GetMappedRangeValueClamped(InputRange, OutputRange, Value)`:
the percentage of `Value` along the input range, clamped to [0,1], mapped onto
the output range. -/
def GetMappedRangeValueClamped (InputRange OutputRange : ℚ × ℚ) (Value : ℚ) : ℚ :=
  let ClampedPct := Clamp (GetRangePct InputRange.1 InputRange.2 Value) 0 1
  GetRangeValue OutputRange ClampedPct

/-- Engine enumeration `FSavedMove_Character::CompressedFlags`, bit masks of the
compressed-flags byte: `FLAG_JumpPressed = 0x01`. -/
def FLAG_JumpPressed : Nat := 0x01

/-- Bit mask `FLAG_WantsToCrouch = 0x02`. -/
def FLAG_WantsToCrouch : Nat := 0x02

/-- Bit mask `FLAG_Reserved_1 = 0x04`. -/
def FLAG_Reserved_1 : Nat := 0x04

/-- Bit mask `FLAG_Reserved_2 = 0x08`. -/
def FLAG_Reserved_2 : Nat := 0x08

/-- Bit mask `FLAG_Custom_0 = 0x10`, the first of the masks the engine leaves to
derived saved moves. -/
def FLAG_Custom_0 : Nat := 0x10

/-- Bit mask `FLAG_Custom_1 = 0x20`. -/
def FLAG_Custom_1 : Nat := 0x20

/-! ## Data model -/

/-- The owning actor as the component sees it: the queries of `AGDCharacterBase`
(and of the pawn and character pointers, which designate the same actor) that
the source calls. `HasMatchingGameplayTag` stands for
`GetAbilitySystemComponent()->HasMatchingGameplayTag(RequestGameplayTag(name))`. -/
structure AGDCharacterBase where
  IsAlive : Bool
  HasMatchingGameplayTag : String → Bool
  GetMoveSpeed : ℚ
  IsLocallyControlled : Bool
  GetLocalRole : ENetRole

/-- Engine query `AActor::HasAuthority()`: `GetLocalRole() == ROLE_Authority`. -/
def AGDCharacterBase.HasAuthority (o : AGDCharacterBase) : Bool :=
  decide (o.GetLocalRole = ENetRole.ROLE_Authority)

/-- State of `UGDCharacterMovementComponent`. `Owner` is the owning character
(`none` when the pointer is null); `MaxWalkSpeed` and `MaxWalkSpeedCrouched` are
the standing and crouched speed caps inherited from the engine component;
`SentServerSetAllowedGait` records the arguments of the `Server_SetAllowedGait`
remote calls issued so far, most recent first. -/
structure UGDCharacterMovementComponent where
  Owner : Option AGDCharacterBase
  SprintSpeedMultiplier : ℚ
  ADSSpeedMultiplier : ℚ
  RequestToStartSprinting : Bool
  RequestToStartADS : Bool
  CurrentMovementSettings : FALSMovementSettings
  AllowedGait : EALSGait
  bRequestMovementSettingsChange : Bool
  MaxWalkSpeed : ℚ
  MaxWalkSpeedCrouched : ℚ
  SentServerSetAllowedGait : List EALSGait

/-- Saved move `FGDSavedMove`: the two saved intent flags, and the byte that
`Super::GetCompressedFlags()` returns for the base part of the move. -/
structure FGDSavedMove where
  SuperGetCompressedFlags : Nat
  SavedRequestToStartSprinting : Bool
  SavedRequestToStartADS : Bool
  deriving DecidableEq, Repr

/-- Shared-pointer handle `FSavedMovePtr` as `CanCombineWith` receives it.
`Object` is the saved move the handle points to (`NewMove.Get()`). The source
does not read that object: it casts `&NewMove`, the address of the handle
itself, to `FGDSavedMove*` and reads the two flag members through that pointer.
`AtHandleSprinting` and `AtHandleADS` are the bits that lie at the offsets of
`SavedRequestToStartSprinting` and `SavedRequestToStartADS` from the address of
the handle. -/
structure FSavedMovePtr where
  Object : FGDSavedMove
  AtHandleSprinting : Bool
  AtHandleADS : Bool
  deriving DecidableEq, Repr

/-! ## Operations of the component -/

namespace UGDCharacterMovementComponent

/-- Source `GetMaxSpeed`. `SuperGetMaxSpeed` is the value of
`Super::GetMaxSpeed()`, returned when the owner is absent. -/
def GetMaxSpeed (c : UGDCharacterMovementComponent) (SuperGetMaxSpeed : ℚ) : ℚ :=
  match c.Owner with
  | none => SuperGetMaxSpeed
  | some Owner =>
    if !Owner.IsAlive then 0
    else if Owner.HasMatchingGameplayTag "State.Debuff.Stun" then 0
    else if c.RequestToStartSprinting then Owner.GetMoveSpeed * c.SprintSpeedMultiplier
    else if c.RequestToStartADS then Owner.GetMoveSpeed * c.ADSSpeedMultiplier
    else Owner.GetMoveSpeed

/-- Source `UpdateFromCompressedFlags`: after the base class has consumed its
own bits, the two intent flags are read from the custom masks. -/
def UpdateFromCompressedFlags (c : UGDCharacterMovementComponent) (Flags : Nat) :
    UGDCharacterMovementComponent :=
  { c with
    RequestToStartSprinting := decide ((Flags &&& FLAG_Custom_0) ≠ 0)
    RequestToStartADS := decide ((Flags &&& FLAG_Custom_1) ≠ 0) }

/-- Source `OnMovementUpdated`; the base class hook is empty. -/
def OnMovementUpdated (c : UGDCharacterMovementComponent) : UGDCharacterMovementComponent :=
  match c.Owner with
  | none => c
  | some _ =>
    if c.bRequestMovementSettingsChange then
      let UpdateMaxWalkSpeed := c.CurrentMovementSettings.GetSpeedForGait c.AllowedGait
      { c with
        MaxWalkSpeed := UpdateMaxWalkSpeed
        MaxWalkSpeedCrouched := UpdateMaxWalkSpeed
        bRequestMovementSettingsChange := false }
    else c

/-- Source `StartSprinting`. -/
def StartSprinting (c : UGDCharacterMovementComponent) : UGDCharacterMovementComponent :=
  { c with RequestToStartSprinting := true }

/-- Source `StopSprinting`. -/
def StopSprinting (c : UGDCharacterMovementComponent) : UGDCharacterMovementComponent :=
  { c with RequestToStartSprinting := false }

/-- Source `StartAimDownSights`. -/
def StartAimDownSights (c : UGDCharacterMovementComponent) : UGDCharacterMovementComponent :=
  { c with RequestToStartADS := true }

/-- Source `StopAimDownSights`. -/
def StopAimDownSights (c : UGDCharacterMovementComponent) : UGDCharacterMovementComponent :=
  { c with RequestToStartADS := false }

/-- Source `GetMappedSpeed`. `Speed` is `Velocity.Size2D()`, the magnitude of
the horizontal velocity. -/
def GetMappedSpeed (c : UGDCharacterMovementComponent) (Speed : ℚ) : ℚ :=
  let LocWalkSpeed := c.CurrentMovementSettings.WalkSpeed
  let LocRunSpeed := c.CurrentMovementSettings.RunSpeed
  let LocSprintSpeed := c.CurrentMovementSettings.SprintSpeed
  if Speed > LocRunSpeed then
    GetMappedRangeValueClamped (LocRunSpeed, LocSprintSpeed) (2, 3) Speed
  else if Speed > LocWalkSpeed then
    GetMappedRangeValueClamped (LocWalkSpeed, LocRunSpeed) (1, 2) Speed
  else
    GetMappedRangeValueClamped (0, LocWalkSpeed) (0, 1) Speed

/-- Source `SetMovementSettings`. -/
def SetMovementSettings (c : UGDCharacterMovementComponent)
    (NewMovementSettings : FALSMovementSettings) : UGDCharacterMovementComponent :=
  { c with
    CurrentMovementSettings := NewMovementSettings
    bRequestMovementSettingsChange := true }

/-- Source `SetAllowedGait`. The owner pointer is dereferenced unguarded once
the gait differs, so an absent owner gives `none`. -/
def SetAllowedGait (c : UGDCharacterMovementComponent) (NewAllowedGait : EALSGait) :
    Option UGDCharacterMovementComponent :=
  if c.AllowedGait ≠ NewAllowedGait then
    match c.Owner with
    | none => none
    | some PawnOwner =>
      if PawnOwner.IsLocallyControlled then
        let c1 := { c with AllowedGait := NewAllowedGait }
        let c2 :=
          if PawnOwner.GetLocalRole = ENetRole.ROLE_AutonomousProxy then
            { c1 with SentServerSetAllowedGait := NewAllowedGait :: c1.SentServerSetAllowedGait }
          else c1
        some { c2 with bRequestMovementSettingsChange := true }
      else if !PawnOwner.HasAuthority then
        let UpdateMaxWalkSpeed := c.CurrentMovementSettings.GetSpeedForGait c.AllowedGait
        some { c with
          MaxWalkSpeed := UpdateMaxWalkSpeed
          MaxWalkSpeedCrouched := UpdateMaxWalkSpeed }
      else some c
  else some c

/-- Source `Server_SetAllowedGait_Implementation`, run on the authoritative side. -/
def Server_SetAllowedGait_Implementation (c : UGDCharacterMovementComponent)
    (NewAllowedGait : EALSGait) : UGDCharacterMovementComponent :=
  { c with AllowedGait := NewAllowedGait }

end UGDCharacterMovementComponent

/-! ## Operations of the saved move -/

namespace FGDSavedMove

/-- Source `FGDSavedMove::Clear`. -/
def Clear (m : FGDSavedMove) (SuperCleared : Nat) : FGDSavedMove :=
  { m with
    SuperGetCompressedFlags := SuperCleared
    SavedRequestToStartSprinting := false
    SavedRequestToStartADS := false }

/-- Source `FGDSavedMove::GetCompressedFlags`; the result is a byte. -/
def GetCompressedFlags (m : FGDSavedMove) : Nat :=
  let Result := m.SuperGetCompressedFlags
  let Result := if m.SavedRequestToStartSprinting then (Result ||| FLAG_Custom_0) % 256 else Result
  let Result := if m.SavedRequestToStartADS then (Result ||| FLAG_Custom_1) % 256 else Result
  Result

/-- Source `FGDSavedMove::CanCombineWith`. `SuperCanCombineWith` is the result
of `Super::CanCombineWith(NewMove, Character, MaxDelta)`. The flags compared
with the saved ones are those read through `(FGDSavedMove*)&NewMove`. -/
def CanCombineWith (m : FGDSavedMove) (NewMove : FSavedMovePtr)
    (SuperCanCombineWith : Bool) : Bool :=
  if m.SavedRequestToStartSprinting != NewMove.AtHandleSprinting then false
  else if m.SavedRequestToStartADS != NewMove.AtHandleADS then false
  else SuperCanCombineWith

/-- Source `FGDSavedMove::SetMoveFor`: the intent flags of the live component
are copied into the move. `SuperFlags` is the byte of the base part after
`Super::SetMoveFor`. -/
def SetMoveFor (m : FGDSavedMove) (SuperFlags : Nat)
    (CharacterMovement : Option UGDCharacterMovementComponent) : FGDSavedMove :=
  match CharacterMovement with
  | none => { m with SuperGetCompressedFlags := SuperFlags }
  | some cm =>
    { SuperGetCompressedFlags := SuperFlags
      SavedRequestToStartSprinting := cm.RequestToStartSprinting
      SavedRequestToStartADS := cm.RequestToStartADS }

end FGDSavedMove

/-- Reference for the mapped speed, after the words of the specification:
`s / walk` on [0, walk], `1 + (s - walk) / (run - walk)` on (walk, run],
`2 + (s - run) / (sprint - run)` on (run, sprint], and 3 above sprint. -/
def mappedSpeedReference (walk run sprint s : ℚ) : ℚ :=
  if s ≤ walk then s / walk
  else if s ≤ run then 1 + (s - walk) / (run - walk)
  else if s ≤ sprint then 2 + (s - run) / (sprint - run)
  else 3

/-! ## Concrete scenarios -/

/-- A living, unstunned owner with base move speed 400 on a simulated replica:
not locally controlled, role `ROLE_SimulatedProxy`. -/
def scenarioOwner : AGDCharacterBase :=
  { IsAlive := true
    HasMatchingGameplayTag := fun _ => false
    GetMoveSpeed := 400
    IsLocallyControlled := false
    GetLocalRole := ENetRole.ROLE_SimulatedProxy }

/-- The same owner carrying the stun tag and no other. -/
def scenarioStunnedOwner : AGDCharacterBase :=
  { scenarioOwner with HasMatchingGameplayTag := fun t => t == "State.Debuff.Stun" }

/-- Gait table walk 200, run 400, sprint 600, no response curve. -/
def scenarioSettings : FALSMovementSettings :=
  { WalkSpeed := 200, RunSpeed := 400, SprintSpeed := 600, MovementCurve := none }

/-- Component with the multipliers of the constructor (1.4 and 0.5), the gait
table of `scenarioSettings`, gait walking, both caps at 150, sprint intent set
and a recalculation pending. -/
def scenarioSprint : UGDCharacterMovementComponent :=
  { Owner := some scenarioOwner
    SprintSpeedMultiplier := 7 / 5
    ADSSpeedMultiplier := 1 / 2
    RequestToStartSprinting := true
    RequestToStartADS := false
    CurrentMovementSettings := scenarioSettings
    AllowedGait := EALSGait.Walking
    bRequestMovementSettingsChange := true
    MaxWalkSpeed := 150
    MaxWalkSpeedCrouched := 150
    SentServerSetAllowedGait := [] }

/-- The component of `scenarioSprint` with the ADS intent set instead. -/
def scenarioADS : UGDCharacterMovementComponent :=
  { scenarioSprint with RequestToStartSprinting := false, RequestToStartADS := true }

/-- The component of `scenarioSprint` with both intents set and a stunned owner. -/
def scenarioStunned : UGDCharacterMovementComponent :=
  { scenarioSprint with Owner := some scenarioStunnedOwner, RequestToStartADS := true }

/-- The component of `scenarioSprint` with no recalculation pending: a
simulated replica (owner not locally controlled, role `ROLE_SimulatedProxy`)
at gait walking with both caps at 150. -/
def scenarioReplica : UGDCharacterMovementComponent :=
  { scenarioSprint with bRequestMovementSettingsChange := false }

/-- The component of `scenarioSprint` with the degenerate gait table walk 0,
run 400, sprint 400. -/
def scenarioDegenerate : UGDCharacterMovementComponent :=
  { scenarioSprint with
    CurrentMovementSettings :=
      { WalkSpeed := 0, RunSpeed := 400, SprintSpeed := 400, MovementCurve := none } }

/-- Gait table with a walk speed below the tolerance of `IsNearlyZero`:
walk 1e-9, run 1, sprint 2. -/
def scenarioTinyWalk : UGDCharacterMovementComponent :=
  { scenarioSprint with
    CurrentMovementSettings :=
      { WalkSpeed := 1 / 1000000000, RunSpeed := 1, SprintSpeed := 2, MovementCurve := none } }

/-! # Theorems -/

open UGDCharacterMovementComponent

/-! ## GetMaxSpeed -/

/-- C2: with the owner present, alive and not stunned, `GetMaxSpeed` is the
base move speed times the sprint multiplier when the sprint intent is set
(whatever the ADS intent), else the base move speed times the ADS multiplier
when the ADS intent is set, else the base move speed. -/
theorem GetMaxSpeed_alive_unstunned (c : UGDCharacterMovementComponent)
    (Owner : AGDCharacterBase) (SuperGetMaxSpeed : ℚ)
    (hOwner : c.Owner = some Owner) (hAlive : Owner.IsAlive = true)
    (hStun : Owner.HasMatchingGameplayTag "State.Debuff.Stun" = false) :
    (c.RequestToStartSprinting = true →
        c.GetMaxSpeed SuperGetMaxSpeed = Owner.GetMoveSpeed * c.SprintSpeedMultiplier) ∧
    (c.RequestToStartSprinting = false → c.RequestToStartADS = true →
        c.GetMaxSpeed SuperGetMaxSpeed = Owner.GetMoveSpeed * c.ADSSpeedMultiplier) ∧
    (c.RequestToStartSprinting = false → c.RequestToStartADS = false →
        c.GetMaxSpeed SuperGetMaxSpeed = Owner.GetMoveSpeed) := by
  refine ⟨?_, ?_, ?_⟩
  · intro hs
    simp [GetMaxSpeed, hOwner, hAlive, hStun, hs]
  · intro hs ha
    simp [GetMaxSpeed, hOwner, hAlive, hStun, hs, ha]
  · intro hs ha
    simp [GetMaxSpeed, hOwner, hAlive, hStun, hs, ha]

/-- Witness of C2: base 400 with sprint multiplier 1.4 and both intents set
gives 560; base 400 with ADS multiplier 0.5 and the ADS intent only gives 200. -/
theorem GetMaxSpeed_alive_unstunned_witness :
    { scenarioSprint with RequestToStartADS := true }.GetMaxSpeed 0 = 560 ∧
    scenarioADS.GetMaxSpeed 0 = 200 := by
  constructor
  · rw [(GetMaxSpeed_alive_unstunned { scenarioSprint with RequestToStartADS := true }
      scenarioOwner 0 rfl rfl rfl).1 rfl]
    norm_num [scenarioOwner, scenarioSprint]
  · rw [(GetMaxSpeed_alive_unstunned scenarioADS scenarioOwner 0 rfl rfl rfl).2.1 rfl rfl]
    norm_num [scenarioOwner, scenarioADS, scenarioSprint]

/-- C3: with the owner present, a dead owner or a living owner that carries the
stun tag makes `GetMaxSpeed` return 0, whatever the intent flags, the base move
speed and the multipliers held by the component. -/
theorem GetMaxSpeed_dead_or_stunned (c : UGDCharacterMovementComponent)
    (Owner : AGDCharacterBase) (SuperGetMaxSpeed : ℚ)
    (hOwner : c.Owner = some Owner)
    (h : Owner.IsAlive = false ∨
      (Owner.IsAlive = true ∧ Owner.HasMatchingGameplayTag "State.Debuff.Stun" = true)) :
    c.GetMaxSpeed SuperGetMaxSpeed = 0 := by
  rcases h with hDead | ⟨hAlive, hStun⟩
  · simp [GetMaxSpeed, hOwner, hDead]
  · simp [GetMaxSpeed, hOwner, hAlive, hStun]

/-- Witness of C3: the stunned living owner with both intents set. -/
theorem GetMaxSpeed_dead_or_stunned_witness :
    scenarioStunned.GetMaxSpeed 123 = 0 :=
  GetMaxSpeed_dead_or_stunned scenarioStunned scenarioStunnedOwner 123 rfl
    (Or.inr ⟨rfl, by decide⟩)

/-! ## Deferred application of the speed caps -/

/-- C9: `SetMovementSettings` makes its argument the current settings, whatever
the order of its three speeds, and sets the pending flag; the two speed caps,
the allowed gait and the two intent flags keep their values. -/
theorem SetMovementSettings_effect (c : UGDCharacterMovementComponent)
    (s : FALSMovementSettings) :
    (c.SetMovementSettings s).CurrentMovementSettings = s ∧
    (c.SetMovementSettings s).bRequestMovementSettingsChange = true ∧
    (c.SetMovementSettings s).MaxWalkSpeed = c.MaxWalkSpeed ∧
    (c.SetMovementSettings s).MaxWalkSpeedCrouched = c.MaxWalkSpeedCrouched ∧
    (c.SetMovementSettings s).AllowedGait = c.AllowedGait ∧
    (c.SetMovementSettings s).RequestToStartSprinting = c.RequestToStartSprinting ∧
    (c.SetMovementSettings s).RequestToStartADS = c.RequestToStartADS :=
  ⟨rfl, rfl, rfl, rfl, rfl, rfl, rfl⟩

/-- C10: with a character owner present, `OnMovementUpdated` on a pending
request sets both caps to the speed of the current settings for the active gait
and clears the flag; without a pending request it returns the state as it is.
Hence a second consecutive call changes nothing after the first, and after
`SetMovementSettings s` the first call applies the speed of `s` for the gait. -/
theorem OnMovementUpdated_applies_once (c : UGDCharacterMovementComponent)
    (Owner : AGDCharacterBase) (hOwner : c.Owner = some Owner) :
    (c.bRequestMovementSettingsChange = true →
      c.OnMovementUpdated.MaxWalkSpeed =
          c.CurrentMovementSettings.GetSpeedForGait c.AllowedGait ∧
      c.OnMovementUpdated.MaxWalkSpeedCrouched =
          c.CurrentMovementSettings.GetSpeedForGait c.AllowedGait ∧
      c.OnMovementUpdated.bRequestMovementSettingsChange = false) ∧
    (c.bRequestMovementSettingsChange = false → c.OnMovementUpdated = c) ∧
    c.OnMovementUpdated.OnMovementUpdated = c.OnMovementUpdated ∧
    (∀ s : FALSMovementSettings,
      (c.SetMovementSettings s).OnMovementUpdated.MaxWalkSpeed =
          s.GetSpeedForGait c.AllowedGait ∧
      (c.SetMovementSettings s).OnMovementUpdated.MaxWalkSpeedCrouched =
          s.GetSpeedForGait c.AllowedGait ∧
      (c.SetMovementSettings s).OnMovementUpdated.bRequestMovementSettingsChange = false) := by
  refine ⟨?_, ?_, ?_, ?_⟩
  · intro hp
    simp [OnMovementUpdated, hOwner, hp]
  · intro hp
    simp [OnMovementUpdated, hOwner, hp]
  · cases hp : c.bRequestMovementSettingsChange
    · simp [OnMovementUpdated, hOwner, hp]
    · simp [OnMovementUpdated, hOwner, hp]
  · intro s
    simp [OnMovementUpdated, SetMovementSettings, hOwner]

/-- Witness of C10: the pending request of `scenarioSprint` (gait walking, walk
speed 200, caps at 150) is applied by the first call and the second call
returns the same state. -/
theorem OnMovementUpdated_applies_once_witness :
    scenarioSprint.Owner = some scenarioOwner ∧
    scenarioSprint.OnMovementUpdated.MaxWalkSpeed = 200 ∧
    scenarioSprint.OnMovementUpdated.MaxWalkSpeedCrouched = 200 ∧
    scenarioSprint.OnMovementUpdated.bRequestMovementSettingsChange = false ∧
    scenarioSprint.OnMovementUpdated.OnMovementUpdated = scenarioSprint.OnMovementUpdated := by
  have h := OnMovementUpdated_applies_once scenarioSprint scenarioOwner rfl
  have h1 := h.1 rfl
  refine ⟨rfl, ?_, ?_, h1.2.2, h.2.2.1⟩
  · rw [h1.1]
    rfl
  · rw [h1.2.1]
    rfl

/-! ## Compressed flags -/

set_option maxRecDepth 200000 in
/-- Byte-level content of the round trip, checked over all 256 bytes and all
four flag combinations. -/
theorem flagBits_roundtrip_bytes :
    ∀ b < 256, ∀ sprint ads : Bool,
      b &&& FLAG_Custom_0 = 0 → b &&& FLAG_Custom_1 = 0 →
      decide ((FGDSavedMove.GetCompressedFlags ⟨b, sprint, ads⟩ &&& FLAG_Custom_0) ≠ 0) = sprint ∧
      decide ((FGDSavedMove.GetCompressedFlags ⟨b, sprint, ads⟩ &&& FLAG_Custom_1) ≠ 0) = ads := by
  decide

set_option maxRecDepth 200000 in
/-- The bits outside the two custom masks (mask 0xCF) pass through
`GetCompressedFlags` unchanged, for all 256 base bytes. -/
theorem flagBits_other_bytes :
    ∀ b < 256, ∀ sprint ads : Bool,
      FGDSavedMove.GetCompressedFlags ⟨b, sprint, ads⟩ &&& 0xCF = b &&& 0xCF := by
  decide

/-- Reading a byte against a one-bit mask is reading that bit. -/
theorem and_mask_ne_zero_eq_testBit (Flags i : Nat) :
    decide ((Flags &&& 2 ^ i) ≠ 0) = Flags.testBit i := by
  rw [Nat.and_two_pow]
  cases Flags.testBit i <;> simp

/-- C4: for each of the four combinations of the two saved intent flags and
every base byte with both custom bits clear, decoding the byte returned by
`GetCompressedFlags` with `UpdateFromCompressedFlags` sets the two intent flags
of the component to the saved ones. -/
theorem compressedFlags_roundtrip (c : UGDCharacterMovementComponent)
    (SuperFlags : Nat) (sprint ads : Bool) (hByte : SuperFlags < 256)
    (h0 : SuperFlags &&& FLAG_Custom_0 = 0) (h1 : SuperFlags &&& FLAG_Custom_1 = 0) :
    (c.UpdateFromCompressedFlags
      (FGDSavedMove.GetCompressedFlags ⟨SuperFlags, sprint, ads⟩)).RequestToStartSprinting
        = sprint ∧
    (c.UpdateFromCompressedFlags
      (FGDSavedMove.GetCompressedFlags ⟨SuperFlags, sprint, ads⟩)).RequestToStartADS
        = ads :=
  flagBits_roundtrip_bytes SuperFlags hByte sprint ads h0 h1

/-- Witness of C4: base byte 3 (jump and crouch bits), sprint saved, ADS not. -/
theorem compressedFlags_roundtrip_witness :
    (3 < 256 ∧ 3 &&& FLAG_Custom_0 = 0 ∧ 3 &&& FLAG_Custom_1 = 0) ∧
    (scenarioADS.UpdateFromCompressedFlags
      (FGDSavedMove.GetCompressedFlags ⟨3, true, false⟩)).RequestToStartSprinting = true ∧
    (scenarioADS.UpdateFromCompressedFlags
      (FGDSavedMove.GetCompressedFlags ⟨3, true, false⟩)).RequestToStartADS = false :=
  ⟨by decide, compressedFlags_roundtrip scenarioADS 3 true false (by decide) (by decide)
    (by decide)⟩

/-- C7, as stated, fails: with a zero base byte the sprint intent alone does not
encode to 1 nor the ADS intent alone to 2 (they encode to 16 and 32), and
decoding the bytes 1 and 2 sets neither intent flag. -/
theorem compressedFlags_not_low_bits :
    FGDSavedMove.GetCompressedFlags ⟨0, true, false⟩ = 16 ∧
    FGDSavedMove.GetCompressedFlags ⟨0, true, false⟩ ≠ 1 ∧
    FGDSavedMove.GetCompressedFlags ⟨0, false, true⟩ = 32 ∧
    FGDSavedMove.GetCompressedFlags ⟨0, false, true⟩ ≠ 2 ∧
    (scenarioSprint.UpdateFromCompressedFlags 1).RequestToStartSprinting = false ∧
    (scenarioADS.UpdateFromCompressedFlags 2).RequestToStartADS = false := by
  decide

/-- C7, amended: the sprint intent occupies bit 4 (mask 0x10, `FLAG_Custom_0`)
and the ADS intent bit 5 (mask 0x20, `FLAG_Custom_1`). With a zero base byte
the sprint intent alone encodes to 16 and the ADS intent alone to 32;
`UpdateFromCompressedFlags` reads the sprint flag from bit 4 and the ADS flag
from bit 5; the six other bits of the encoded byte are those of the base byte. -/
theorem compressedFlags_layout (c : UGDCharacterMovementComponent)
    (Flags SuperFlags : Nat) (sprint ads : Bool) (hByte : SuperFlags < 256) :
    FGDSavedMove.GetCompressedFlags ⟨0, true, false⟩ = 2 ^ 4 ∧
    FGDSavedMove.GetCompressedFlags ⟨0, false, true⟩ = 2 ^ 5 ∧
    (c.UpdateFromCompressedFlags Flags).RequestToStartSprinting = Flags.testBit 4 ∧
    (c.UpdateFromCompressedFlags Flags).RequestToStartADS = Flags.testBit 5 ∧
    FGDSavedMove.GetCompressedFlags ⟨SuperFlags, sprint, ads⟩ &&& 0xCF = SuperFlags &&& 0xCF :=
  ⟨by decide, by decide, and_mask_ne_zero_eq_testBit Flags 4,
    and_mask_ne_zero_eq_testBit Flags 5, flagBits_other_bytes SuperFlags hByte sprint ads⟩

/-- Witness of the amended C7: decoding byte 0x13 sets sprint and clears ADS;
encoding both intents over base byte 3 gives 0x33, whose other bits are 3. -/
theorem compressedFlags_layout_witness :
    (3 < 256) ∧
    (scenarioADS.UpdateFromCompressedFlags 0x13).RequestToStartSprinting = true ∧
    (scenarioADS.UpdateFromCompressedFlags 0x13).RequestToStartADS = false ∧
    FGDSavedMove.GetCompressedFlags ⟨3, true, true⟩ &&& 0xCF = 3 := by
  have h := compressedFlags_layout scenarioADS 0x13 3 true true (by decide)
  refine ⟨by decide, ?_, ?_, ?_⟩
  · rw [h.2.2.1]
    decide
  · rw [h.2.2.2.1]
    decide
  · rw [h.2.2.2.2]
    decide

/-! ## Combining saved moves -/

/-- The result of `CanCombineWith` is decided by the bits read at the handle and
by the base result; the saved move the handle points to does not enter it. -/
theorem CanCombineWith_reads_handle (m o1 o2 : FGDSavedMove) (a b s : Bool) :
    m.CanCombineWith ⟨o1, a, b⟩ s = m.CanCombineWith ⟨o2, a, b⟩ s ∧
    m.CanCombineWith ⟨o1, a, b⟩ s =
      (decide (m.SavedRequestToStartSprinting = a) &&
        decide (m.SavedRequestToStartADS = b) && s) := by
  refine ⟨rfl, ?_⟩
  cases hs : m.SavedRequestToStartSprinting <;> cases ha : m.SavedRequestToStartADS <;>
    cases a <;> cases b <;> cases s <;> simp [FGDSavedMove.CanCombineWith, hs, ha]

/-- C5, the code at the failing input. A pending move without sprint intent
and a new move with sprint intent, the base check answering true: with zero
bits at the handle the moves combine although their sprint flags differ; and
two moves with equal flags do not combine, against the base result, when the
bit read at the handle is set. -/
theorem CanCombineWith_at_failing_input :
    FGDSavedMove.CanCombineWith ⟨0, false, false⟩ ⟨⟨0, true, false⟩, false, false⟩ true = true ∧
    FGDSavedMove.CanCombineWith ⟨0, false, false⟩ ⟨⟨0, false, false⟩, true, false⟩ true = false := by
  decide

/-! ## SetAllowedGait on a replica -/

/-- On an owner that is neither locally controlled nor authoritative, a call of
`SetAllowedGait` with a gait other than the allowed one returns the state with
both caps set to the speed of the gait that was allowed before the call; the
allowed gait, the pending flag and every other member are as before. -/
theorem SetAllowedGait_on_replica (c : UGDCharacterMovementComponent)
    (Owner : AGDCharacterBase) (g : EALSGait) (hOwner : c.Owner = some Owner)
    (hLocal : Owner.IsLocallyControlled = false) (hAuth : Owner.HasAuthority = false)
    (hg : c.AllowedGait ≠ g) :
    c.SetAllowedGait g =
      some { c with
        MaxWalkSpeed := c.CurrentMovementSettings.GetSpeedForGait c.AllowedGait
        MaxWalkSpeedCrouched := c.CurrentMovementSettings.GetSpeedForGait c.AllowedGait } := by
  simp [SetAllowedGait, hOwner, hLocal, hAuth, hg]

/-- C8, the code at the failing input. On the simulated replica of
`scenarioReplica` (gait walking, table 200/400/600, caps 150)
`SetAllowedGait(Sprinting)` leaves the allowed gait at walking and sets both
caps to 200, the walk speed, not to the sprint speed 600. -/
theorem SetAllowedGait_replica_at_failing_input :
    (scenarioReplica.SetAllowedGait EALSGait.Sprinting).map (fun c => c.AllowedGait)
      = some EALSGait.Walking ∧
    (scenarioReplica.SetAllowedGait EALSGait.Sprinting).map (fun c => c.MaxWalkSpeed)
      = some 200 ∧
    (scenarioReplica.SetAllowedGait EALSGait.Sprinting).map (fun c => c.MaxWalkSpeedCrouched)
      = some 200 ∧
    (scenarioReplica.SetAllowedGait EALSGait.Sprinting).map
      (fun c => c.bRequestMovementSettingsChange) = some false ∧
    scenarioReplica.CurrentMovementSettings.GetSpeedForGait EALSGait.Sprinting = 600 := by
  refine ⟨rfl, rfl, rfl, rfl, rfl⟩

/-! ## GetMappedSpeed -/

/-- The clamp to [0,1] lands in [0,1]. -/
theorem Clamp_unit_bounds (x : ℚ) : 0 ≤ Clamp x 0 1 ∧ Clamp x 0 1 ≤ 1 := by
  unfold Clamp
  split_ifs <;> constructor <;> linarith

/-- The clamp to [0,1] is monotone. -/
theorem Clamp_unit_mono {x y : ℚ} (h : x ≤ y) : Clamp x 0 1 ≤ Clamp y 0 1 := by
  unfold Clamp
  split_ifs <;> linarith

/-- Over an ordered input range `GetRangePct` is monotone in the value, also
when the range is a point up to the tolerance. -/
theorem GetRangePct_mono {a b s1 s2 : ℚ} (hab : a ≤ b) (h : s1 ≤ s2) :
    GetRangePct a b s1 ≤ GetRangePct a b s2 := by
  unfold GetRangePct IsNearlyZero
  simp only [decide_eq_true_eq]
  by_cases hz : |b - a| ≤ SMALL_NUMBER
  · simp only [hz, if_true]
    split_ifs <;> linarith
  · simp only [hz, if_false]
    have hpos : 0 ≤ b - a := by linarith
    exact div_le_div_of_nonneg_right (by linarith) hpos

/-- A clamped mapping onto an output range of length one stays inside it. -/
theorem GetMappedRangeValueClamped_bounds (a b A s : ℚ) :
    A ≤ GetMappedRangeValueClamped (a, b) (A, A + 1) s ∧
    GetMappedRangeValueClamped (a, b) (A, A + 1) s ≤ A + 1 := by
  have h := Clamp_unit_bounds (GetRangePct a b s)
  simp only [GetMappedRangeValueClamped, GetRangeValue, Lerp]
  constructor <;> nlinarith [h.1, h.2]

/-- A clamped mapping of an ordered input range onto an output range of length
one is monotone in the value. -/
theorem GetMappedRangeValueClamped_mono {a b s1 s2 : ℚ} (A : ℚ) (hab : a ≤ b) (h : s1 ≤ s2) :
    GetMappedRangeValueClamped (a, b) (A, A + 1) s1 ≤
      GetMappedRangeValueClamped (a, b) (A, A + 1) s2 := by
  have hm := Clamp_unit_mono (GetRangePct_mono hab h)
  simp only [GetMappedRangeValueClamped, GetRangeValue, Lerp]
  nlinarith [hm]

/-- The three calls of `GetMappedSpeed`, with the output ranges written as
ranges of length one. -/
theorem GetMappedSpeed_eq (c : UGDCharacterMovementComponent) (s : ℚ) :
    c.GetMappedSpeed s =
      if s > c.CurrentMovementSettings.RunSpeed then
        GetMappedRangeValueClamped
          (c.CurrentMovementSettings.RunSpeed, c.CurrentMovementSettings.SprintSpeed)
          (2, 2 + 1) s
      else if s > c.CurrentMovementSettings.WalkSpeed then
        GetMappedRangeValueClamped
          (c.CurrentMovementSettings.WalkSpeed, c.CurrentMovementSettings.RunSpeed)
          (1, 1 + 1) s
      else
        GetMappedRangeValueClamped (0, c.CurrentMovementSettings.WalkSpeed) (0, 0 + 1) s := by
  norm_num [GetMappedSpeed]

/-- C1: for a gait table with 0 ≤ walk ≤ run ≤ sprint, `GetMappedSpeed` is
monotonically non-decreasing over the horizontal speeds s ≥ 0 and its value
lies in [0,3]; tables with walk = 0, walk = run or run = sprint are included. -/
theorem GetMappedSpeed_mono_bounded (c : UGDCharacterMovementComponent)
    (hWalk : 0 ≤ c.CurrentMovementSettings.WalkSpeed)
    (hRun : c.CurrentMovementSettings.WalkSpeed ≤ c.CurrentMovementSettings.RunSpeed)
    (hSprint : c.CurrentMovementSettings.RunSpeed ≤ c.CurrentMovementSettings.SprintSpeed) :
    (∀ s1 s2 : ℚ, 0 ≤ s1 → s1 ≤ s2 → c.GetMappedSpeed s1 ≤ c.GetMappedSpeed s2) ∧
    (∀ s : ℚ, 0 ≤ s → 0 ≤ c.GetMappedSpeed s ∧ c.GetMappedSpeed s ≤ 3) := by
  constructor
  · intro s1 s2 _ h12
    rw [GetMappedSpeed_eq, GetMappedSpeed_eq]
    have b3 := fun s => GetMappedRangeValueClamped_bounds
      c.CurrentMovementSettings.RunSpeed c.CurrentMovementSettings.SprintSpeed 2 s
    have b2 := fun s => GetMappedRangeValueClamped_bounds
      c.CurrentMovementSettings.WalkSpeed c.CurrentMovementSettings.RunSpeed 1 s
    have b1 := fun s => GetMappedRangeValueClamped_bounds
      0 c.CurrentMovementSettings.WalkSpeed 0 s
    split_ifs with h1 h2 h3 h4 h5 h6
    · exact GetMappedRangeValueClamped_mono 2 hSprint h12
    · linarith
    · linarith
    · linarith [(b2 s1).2, (b3 s2).1]
    · exact GetMappedRangeValueClamped_mono 1 hRun h12
    · linarith
    · linarith [(b1 s1).2, (b3 s2).1]
    · linarith [(b1 s1).2, (b2 s2).1]
    · exact GetMappedRangeValueClamped_mono 0 hWalk h12
  · intro s _
    rw [GetMappedSpeed_eq]
    split_ifs
    · have b := GetMappedRangeValueClamped_bounds
        c.CurrentMovementSettings.RunSpeed c.CurrentMovementSettings.SprintSpeed 2 s
      constructor <;> linarith [b.1, b.2]
    · have b := GetMappedRangeValueClamped_bounds
        c.CurrentMovementSettings.WalkSpeed c.CurrentMovementSettings.RunSpeed 1 s
      constructor <;> linarith [b.1, b.2]
    · have b := GetMappedRangeValueClamped_bounds
        0 c.CurrentMovementSettings.WalkSpeed 0 s
      constructor <;> linarith [b.1, b.2]

/-- Witness of C1: the table 200/400/600 at the speeds 300 and 500, and the
degenerate table 0/400/400 at the speeds 0 and 400. -/
theorem GetMappedSpeed_mono_bounded_witness :
    ((0 : ℚ) ≤ 200 ∧ (200 : ℚ) ≤ 400 ∧ (400 : ℚ) ≤ 600) ∧
    scenarioSprint.GetMappedSpeed 300 ≤ scenarioSprint.GetMappedSpeed 500 ∧
    (0 ≤ scenarioSprint.GetMappedSpeed 500 ∧ scenarioSprint.GetMappedSpeed 500 ≤ 3) ∧
    scenarioDegenerate.GetMappedSpeed 0 ≤ scenarioDegenerate.GetMappedSpeed 400 ∧
    (0 ≤ scenarioDegenerate.GetMappedSpeed 400 ∧ scenarioDegenerate.GetMappedSpeed 400 ≤ 3) := by
  have h := GetMappedSpeed_mono_bounded scenarioSprint
    (by norm_num [scenarioSprint, scenarioSettings])
    (by norm_num [scenarioSprint, scenarioSettings])
    (by norm_num [scenarioSprint, scenarioSettings])
  have d := GetMappedSpeed_mono_bounded scenarioDegenerate
    (by norm_num [scenarioDegenerate])
    (by norm_num [scenarioDegenerate])
    (by norm_num [scenarioDegenerate])
  exact ⟨by norm_num, h.1 300 500 (by norm_num) (by norm_num), h.2 500 (by norm_num),
    d.1 0 400 (by norm_num) (by norm_num), d.2 400 (by norm_num)⟩

/-- The tolerance of `IsNearlyZero` is positive. -/
theorem SMALL_NUMBER_pos : 0 < SMALL_NUMBER := by
  norm_num [SMALL_NUMBER]

/-- Over an input range wider than the tolerance, at a value not below its
start, the clamped mapping onto a range of length one is the linear
interpolation below the end of the range and the upper output bound from
there on. -/
theorem GetMappedRangeValueClamped_wide {a b s : ℚ} (A : ℚ)
    (hw : SMALL_NUMBER < b - a) (has : a ≤ s) :
    GetMappedRangeValueClamped (a, b) (A, A + 1) s =
      if s < b then A + (s - a) / (b - a) else A + 1 := by
  have hpos : 0 < b - a := lt_trans SMALL_NUMBER_pos hw
  have hz : ¬ |b - a| ≤ SMALL_NUMBER := fun h => absurd (le_trans (le_abs_self _) h) (not_le.mpr hw)
  have hpct : GetRangePct a b s = (s - a) / (b - a) := by
    simp [GetRangePct, IsNearlyZero, hz]
  have h0 : ¬ (s - a) / (b - a) < 0 := not_lt.mpr (div_nonneg (by linarith) hpos.le)
  have h1 : (s - a) / (b - a) < 1 ↔ s < b := by
    rw [div_lt_one hpos]
    constructor <;> intro h <;> linarith
  simp only [GetMappedRangeValueClamped, GetRangeValue, Lerp, hpct, Clamp, h0, if_false, h1]
  split_ifs <;> ring

/-- C6, as stated, fails: the table walk 1e-9, run 1, sprint 2 satisfies
0 < walk < run < sprint, and at the speed 5e-10 `GetMappedSpeed` is 0 while the
piecewise-linear reference is 1/2. -/
theorem GetMappedSpeed_tiny_walk_differs :
    ((0 : ℚ) < 1 / 1000000000 ∧ (1 / 1000000000 : ℚ) < 1 ∧ (1 : ℚ) < 2) ∧
    scenarioTinyWalk.CurrentMovementSettings =
      ⟨1 / 1000000000, 1, 2, none⟩ ∧
    scenarioTinyWalk.GetMappedSpeed (1 / 2000000000) = 0 ∧
    mappedSpeedReference (1 / 1000000000) 1 2 (1 / 2000000000) = 1 / 2 ∧
    scenarioTinyWalk.GetMappedSpeed (1 / 2000000000) ≠
      mappedSpeedReference (1 / 1000000000) 1 2 (1 / 2000000000) := by
  have hc : scenarioTinyWalk.GetMappedSpeed (1 / 2000000000) = 0 := by
    norm_num [GetMappedSpeed, scenarioTinyWalk, GetMappedRangeValueClamped, GetRangePct,
      IsNearlyZero, SMALL_NUMBER, Clamp, GetRangeValue, Lerp, abs_le]
  have hr : mappedSpeedReference (1 / 1000000000) 1 2 (1 / 2000000000) = 1 / 2 := by
    norm_num [mappedSpeedReference]
  refine ⟨by norm_num, rfl, hc, hr, ?_⟩
  rw [hc, hr]
  norm_num

/-- C6, amended: for a gait table in which the walk speed, the step from walk
to run and the step from run to sprint each exceed the tolerance 1e-8 of the
range mapping, and every horizontal speed s ≥ 0, `GetMappedSpeed` equals the
piecewise-linear reference. -/
theorem GetMappedSpeed_eq_reference (c : UGDCharacterMovementComponent) (s : ℚ)
    (hWalk : SMALL_NUMBER < c.CurrentMovementSettings.WalkSpeed)
    (hRun : SMALL_NUMBER <
      c.CurrentMovementSettings.RunSpeed - c.CurrentMovementSettings.WalkSpeed)
    (hSprint : SMALL_NUMBER <
      c.CurrentMovementSettings.SprintSpeed - c.CurrentMovementSettings.RunSpeed)
    (hs : 0 ≤ s) :
    c.GetMappedSpeed s =
      mappedSpeedReference c.CurrentMovementSettings.WalkSpeed
        c.CurrentMovementSettings.RunSpeed c.CurrentMovementSettings.SprintSpeed s := by
  have hp := SMALL_NUMBER_pos
  rw [GetMappedSpeed_eq]
  unfold mappedSpeedReference
  by_cases h1 : s > c.CurrentMovementSettings.RunSpeed
  · rw [if_pos h1, GetMappedRangeValueClamped_wide 2 hSprint h1.le]
    have hnw : ¬ s ≤ c.CurrentMovementSettings.WalkSpeed := by
      intro h; linarith
    have hnr : ¬ s ≤ c.CurrentMovementSettings.RunSpeed := not_le.mpr h1
    rw [if_neg hnw, if_neg hnr]
    rcases lt_trichotomy s c.CurrentMovementSettings.SprintSpeed with hlt | heq | hgt
    · rw [if_pos hlt, if_pos hlt.le]
    · have hd : c.CurrentMovementSettings.SprintSpeed - c.CurrentMovementSettings.RunSpeed ≠ 0 := by
        intro h; linarith
      rw [if_neg (by rw [heq]; exact lt_irrefl _), if_pos heq.le, heq, div_self hd]
    · rw [if_neg (not_lt.mpr hgt.le), if_neg (not_le.mpr hgt)]
      norm_num
  · rw [if_neg h1]
    have hle : s ≤ c.CurrentMovementSettings.RunSpeed := not_lt.mp h1
    by_cases h2 : s > c.CurrentMovementSettings.WalkSpeed
    · rw [if_pos h2, GetMappedRangeValueClamped_wide 1 hRun h2.le,
        if_neg (not_le.mpr h2), if_pos hle]
      rcases lt_or_eq_of_le hle with hlt | heq
      · rw [if_pos hlt]
      · have hd : c.CurrentMovementSettings.RunSpeed - c.CurrentMovementSettings.WalkSpeed ≠ 0 := by
          intro h; linarith
        rw [if_neg (by rw [heq]; exact lt_irrefl _), heq, div_self hd]
    · rw [if_neg h2]
      have hlw : s ≤ c.CurrentMovementSettings.WalkSpeed := not_lt.mp h2
      have hw0 : SMALL_NUMBER < c.CurrentMovementSettings.WalkSpeed - 0 := by
        rw [sub_zero]; exact hWalk
      rw [GetMappedRangeValueClamped_wide 0 hw0 hs, if_pos hlw]
      rcases lt_or_eq_of_le hlw with hlt | heq
      · rw [if_pos hlt]
        simp
      · have hd : c.CurrentMovementSettings.WalkSpeed ≠ 0 := by
          intro h; linarith
        rw [if_neg (by rw [heq]; exact lt_irrefl _), heq, div_self hd]
        norm_num

/-- Witness of the amended C6: walk 200, run 400, sprint 600 at speed 300 gives
1.5, the value of the reference. -/
theorem GetMappedSpeed_eq_reference_witness :
    (SMALL_NUMBER < 200 ∧ SMALL_NUMBER < 400 - 200 ∧ SMALL_NUMBER < 600 - 400 ∧ (0 : ℚ) ≤ 300) ∧
    scenarioSprint.GetMappedSpeed 300 = mappedSpeedReference 200 400 600 300 ∧
    mappedSpeedReference 200 400 600 300 = 3 / 2 := by
  refine ⟨by norm_num [SMALL_NUMBER], ?_, by norm_num [mappedSpeedReference]⟩
  exact GetMappedSpeed_eq_reference scenarioSprint 300
    (by norm_num [SMALL_NUMBER, scenarioSprint, scenarioSettings])
    (by norm_num [SMALL_NUMBER, scenarioSprint, scenarioSettings])
    (by norm_num [SMALL_NUMBER, scenarioSprint, scenarioSettings])
    (by norm_num)

end GASD
